import Mathlib

/-!
Shallow embedding of the flight-voice-agent dialogue controller
(`src/app.py` together with the collaborator contracts of
`src/voice_utils.py`, `src/gemini_utils.py`, `src/db_utils.py`).

The Streamlit script is a re-entrant driver: each run of the script
dispatches on `st.session_state.stage` and performs one stage's logic.
We model one such dispatch as a pure function `step : Env → AppState →
AppState × Effects`, where `Env` carries the results of the external
collaborators for this dispatch (the transcript returned by
`voice_utils.listen`, today's date, the natural-language date parser,
the SQL generator of `gemini_utils.generate_sql_query` and the executor
of `db_utils.execute_query`) and `Effects` records the observable side
effects (the texts handed to `voice_utils.speak`, and the query strings
handed to `db_utils.execute_query`).
-/

/-- A calendar date, the value of Python `datetime.date` objects. -/
structure CalDate where
  y : Nat
  m : Nat
  d : Nat
deriving DecidableEq, Repr

/-- Python `date` comparison `a < b` (lexicographic on year, month, day). -/
def CalDate.lt (a b : CalDate) : Bool :=
  decide (a.y < b.y) ||
    (decide (a.y = b.y) &&
      (decide (a.m < b.m) || (decide (a.m = b.m) && decide (a.d < b.d))))

/-- Does list `p` occur at the head of list `s`? (helper for substring search). -/
def leadsWith : List Char → List Char → Bool
  | [], _ => true
  | _ :: _, [] => false
  | a :: as, b :: bs => a == b && leadsWith as bs

/-- Does list `p` occur as a contiguous sublist of `s`? -/
def containsSub (p : List Char) : List Char → Bool
  | [] => leadsWith p []
  | b :: bs => leadsWith p (b :: bs) || containsSub p bs

/-- Python `pat in s` substring test. -/
def containsStr (s pat : String) : Bool :=
  containsSub pat.data s.data

/-- Python `str.lower()` (ASCII case folding suffices for this program). -/
def strLower (s : String) : String :=
  String.mk (s.data.map Char.toLower)

/-- Python `str.strip()`: drop leading and trailing whitespace. -/
def pyStrip (s : String) : String :=
  String.mk
    (((s.data.dropWhile Char.isWhitespace).reverse.dropWhile
        Char.isWhitespace).reverse)

/-- One character of Python `str.title()`: the first letter of each
alphabetic run is uppercased, subsequent letters lowercased. -/
def titleChar (prevCased : Bool) (c : Char) : Char :=
  if c.isAlpha then (if prevCased then c.toLower else c.toUpper) else c

/-- Python `str.title()`. -/
def pyTitle (s : String) : String :=
  String.mk
    ((s.data.foldl
        (fun (acc : List Char × Bool) c =>
          (acc.1 ++ [titleChar acc.2 c], c.isAlpha))
        ([], false)).1)

/-- The ASCII digit character for `n < 10`. -/
def digitChar (n : Nat) : Char :=
  Char.ofNat (48 + n)

/-- The value of an ASCII digit character, `none` for non-digits. -/
def digitVal (c : Char) : Option Nat :=
  if 48 ≤ c.toNat ∧ c.toNat ≤ 57 then some (c.toNat - 48) else none

/-- Read a decimal number from digit characters (accumulator form). -/
def readNatAux : Nat → List Char → Option Nat
  | acc, [] => some acc
  | acc, c :: cs =>
    match digitVal c with
    | some v => readNatAux (acc * 10 + v) cs
    | none => none

/-- Read a non-empty all-digit character list as a decimal number. -/
def readNatL (cs : List Char) : Option Nat :=
  if cs.isEmpty then none else readNatAux 0 cs

/-- Split a character list into space-separated words (helper). -/
def splitWordsAux : List Char → List Char → List (List Char)
  | [], acc => if acc.isEmpty then [] else [acc.reverse]
  | c :: cs, acc =>
    if c = ' ' then
      if acc.isEmpty then splitWordsAux cs []
      else acc.reverse :: splitWordsAux cs []
    else splitWordsAux cs (c :: acc)

/-- Split a character list into space-separated words. -/
def splitWords (cs : List Char) : List (List Char) :=
  splitWordsAux cs []

/-- The decimal representation of `n` zero-padded to two digits (Python
`strftime` fields `%d` / `%m`; `datetime` guarantees month and day are
below 100, where this agrees with Python). -/
def pad2 (n : Nat) : String :=
  String.mk [digitChar (n / 10), digitChar (n % 10)]

/-- The decimal representation of `n` zero-padded to four digits
(Python `strftime` field `%Y`; `datetime` guarantees the year is
between 1 and 9999, where this agrees with Python). -/
def pad4 (n : Nat) : String :=
  String.mk [digitChar (n / 1000), digitChar (n / 100 % 10),
             digitChar (n / 10 % 10), digitChar (n % 10)]

/-- Python `dt.strftime("%Y-%m-%d")`. -/
def formatDate (c : CalDate) : String :=
  pad4 c.y ++ "-" ++ pad2 c.m ++ "-" ++ pad2 c.d

/-- English month names for Python `strftime` field `%B` (months 1..12). -/
def monthName : Nat → String
  | 1 => "January"
  | 2 => "February"
  | 3 => "March"
  | 4 => "April"
  | 5 => "May"
  | 6 => "June"
  | 7 => "July"
  | 8 => "August"
  | 9 => "September"
  | 10 => "October"
  | 11 => "November"
  | 12 => "December"
  | _ => ""

/-- Python `dt.strftime("%B %d, %Y")`, the long date form spoken in
acknowledgements and in the confirmation summary. -/
def formatLong (c : CalDate) : String :=
  monthName c.m ++ " " ++ pad2 c.d ++ ", " ++ toString c.y

/-- Parse a ten-character `"YYYY-MM-DD"` string back into a date (the
only shape `strptime(s, "%Y-%m-%d")` receives in this program, since
every such string was produced by `strftime("%Y-%m-%d")`). -/
def parseISO (s : String) : Option CalDate :=
  match s.data with
  | [y1, y2, y3, y4, h1, m1, m2, h2, d1, d2] =>
    if h1 = '-' ∧ h2 = '-' then
      match digitVal y1, digitVal y2, digitVal y3, digitVal y4,
            digitVal m1, digitVal m2, digitVal d1, digitVal d2 with
      | some a, some b, some c, some e, some f, some g, some i, some j =>
        some ⟨((a * 10 + b) * 10 + c) * 10 + e, f * 10 + g, i * 10 + j⟩
      | _, _, _, _, _, _, _, _ => none
    else none
  | _ => none

/-- Python `datetime.strptime(s, "%Y-%m-%d").date()` as used in
`app.py`.  In the source this call only ever receives strings that were
produced by `strftime("%Y-%m-%d")` (it would raise otherwise); the
default value covers the unreachable invalid case. -/
def strptimeISO (s : String) : CalDate :=
  (parseISO s).getD ⟨0, 0, 0⟩

/-- The `st.session_state.user_data` dictionary (`app.py` lines 32-39):
the Booking Record.  Every field starts as Python `None`.  The Python
key `class` is spelled `cls` here because `class` is a Lean keyword. -/
structure UserData where
  name : Option String
  dob : Option String
  date : Option String
  origin : Option String
  destination : Option String
  cls : Option String
deriving DecidableEq, Repr

/-- The freshly initialised Booking Record: all six fields `None`. -/
def emptyUserData : UserData :=
  { name := none, dob := none, date := none
    origin := none, destination := none, cls := none }

/-- The conversation stages of `st.session_state.stage`. -/
inductive Stage where
  | INIT
  | ASK_DATE
  | GET_DATE
  | ASK_ORIGIN
  | GET_ORIGIN
  | ASK_DESTINATION
  | GET_DESTINATION
  | ASK_CLASS
  | GET_CLASS
  | ASK_NAME
  | GET_NAME
  | ASK_DOB
  | GET_DOB
  | CONFIRM
  | GET_CONFIRMATION
  | QUERYING
  | SHOW_RESULTS
  | ERROR
  | DONE
deriving DecidableEq, Repr

open Stage

/-- The listen states: stages whose dispatch calls `voice_utils.listen`. -/
def isListenStage : Stage → Bool
  | GET_DATE | GET_ORIGIN | GET_DESTINATION | GET_CLASS
  | GET_NAME | GET_DOB | GET_CONFIRMATION => true
  | _ => false

/-- A flight row returned by `db_utils.execute_query`
(`sqlite3.Row`, a dictionary-like record of column/value pairs). -/
def Row := List (String × String)
deriving instance DecidableEq for Row

/-- The flight-criteria dictionary built in the `QUERYING` stage
(`app.py` lines 354-359) and passed to
`gemini_utils.generate_sql_query`. -/
structure FlightDetails where
  origin : Option String
  destination : Option String
  date : Option String
  cls : Option String
deriving DecidableEq, Repr

/-- The whole mutable `st.session_state` relevant to the dialogue. -/
structure AppState where
  stage : Stage
  user_data : UserData
  last_speech_input : Option String
  error_message : Option String
  sql_query : Option String
  flight_results : Option (List Row)
  processing : Bool
deriving DecidableEq

/-- The external collaborators' behaviour during one dispatch:
`listen` is the transcript (or timeout/failure) returned by
`voice_utils.listen`; `today` is `datetime.now().date()`; `parseDate`
is the permissive `dateutil` parser behind `try_parse_date_string`;
`genQuery` is `gemini_utils.generate_sql_query`; `execQuery` is
`db_utils.execute_query`. -/
structure Env where
  listen : Option String
  today : CalDate
  parseDate : String → Option CalDate
  genQuery : FlightDetails → Option String
  execQuery : String → Option (List Row)

/-- Observable side effects of one dispatch: the texts spoken through
`voice_utils.speak`, and the query strings sent to
`db_utils.execute_query`. -/
structure Effects where
  spoken : List String
  dbCalls : List String
deriving DecidableEq, Repr

/-- `handle_reset` (`app.py` lines 52-65): restore the initial session
state and speak the restart acknowledgement. -/
def handle_reset (eff : Effects) : AppState × Effects :=
  ({ stage := INIT
     user_data := emptyUserData
     last_speech_input := some ""
     error_message := none
     sql_query := none
     flight_results := none
     processing := false },
   { eff with spoken := eff.spoken ++ ["Okay, let\x27s start over."] })

/-- `try_parse_date_string` (`app.py` lines 68-82): run the permissive
date parser; on success return the date formatted `"YYYY-MM-DD"`, on
failure an error message naming the unparsed text. -/
def try_parse_date_string (env : Env) (text_input : String) :
    Option String × Option String :=
  match env.parseDate text_input with
  | some dt => (some (formatDate dt), none)
  | none =>
    (none,
     some ("I couldn\x27t understand \x27" ++ text_input ++
       "\x27 as a date format. Please try saying it again (e.g., \x27April 15th\x27, \x27Tomorrow\x27, \x27May 10 1990\x27)."))

/-- `parse_class` (`app.py` lines 85-94): case-insensitive keyword
match, checked in the order Economy, Business, First. -/
def parse_class (text_input : String) : Option String :=
  let t := strLower text_input
  if containsStr t "economy" || containsStr t "coach" then some "Economy"
  else if containsStr t "business" then some "Business"
  else if containsStr t "first" || containsStr t "1st" then some "First"
  else none

/-- Python truthiness of a Booking Record field
(`st.session_state.user_data.get(key)` in a boolean context): present
and non-empty. -/
def fieldTruthy : Option String → Bool
  | none => false
  | some s => !(s == "")

/-- No side effects. -/
def noEff : Effects := { spoken := [], dbCalls := [] }

/-- Speak a list of texts (in order) as the only effects. -/
def speakEff (ts : List String) : Effects := { spoken := ts, dbCalls := [] }

/-- One dispatch of the Streamlit script (`app.py` lines 124-417):
dispatch on the current stage, perform that stage's logic, and return
the updated session state together with the observable effects.  The
`INIT` stage only renders the start button (advancing happens through a
UI callback), and a dispatch with the busy flag set does nothing
(`app.py` line 138). -/
def step (env : Env) (s : AppState) : AppState × Effects :=
  if s.stage = INIT then (s, noEff)
  else if s.processing then (s, noEff)
  else
    match s.stage with
    | ASK_DATE =>
      ({ s with stage := GET_DATE, processing := false },
       speakEff ["What date would you like to depart?"])
    | GET_DATE =>
      match env.listen with
      | some t =>
        if t ≠ "" then
          if containsStr t "reset" then handle_reset noEff
          else
            match try_parse_date_string env t with
            | (_, some parse_error) =>
              ({ s with last_speech_input := some t
                        error_message := some parse_error
                        stage := GET_DATE, processing := false },
               speakEff [parse_error])
            | (some parsed_date_str, none) =>
              let departure_date := strptimeISO parsed_date_str
              if CalDate.lt departure_date env.today then
                let error_msg :=
                  "Departure date cannot be in the past. Please provide a date from today onwards."
                ({ s with last_speech_input := some t
                          error_message := some error_msg
                          stage := GET_DATE, processing := false },
                 speakEff [error_msg])
              else
                ({ s with last_speech_input := some t
                          user_data := { s.user_data with date := some parsed_date_str }
                          stage := ASK_ORIGIN, processing := false },
                 speakEff ["Okay, departing on " ++ formatLong departure_date ++ "."])
            | (none, none) => (s, noEff) -- unreachable: `try_parse_date_string` always sets one side
        else
          ({ s with last_speech_input := some t
                    error_message := some "Listening failed. Please try again."
                    stage := GET_DATE, processing := false }, noEff)
      | none =>
        ({ s with last_speech_input := none
                  error_message := some "Listening failed. Please try again."
                  stage := GET_DATE, processing := false }, noEff)
    | ASK_ORIGIN =>
      ({ s with stage := GET_ORIGIN, processing := false },
       speakEff ["Which city are you departing from?"])
    | GET_ORIGIN =>
      match env.listen with
      | some t =>
        if t ≠ "" then
          if containsStr t "reset" then handle_reset noEff
          else
            let v := pyTitle (pyStrip t)
            ({ s with last_speech_input := some t
                      user_data := { s.user_data with origin := some v }
                      stage := ASK_DESTINATION, processing := false },
             speakEff ["Got it, departing from " ++ v ++ "."])
        else
          ({ s with last_speech_input := some t
                    error_message := some "Listening failed. Please try again."
                    stage := GET_ORIGIN, processing := false }, noEff)
      | none =>
        ({ s with last_speech_input := none
                  error_message := some "Listening failed. Please try again."
                  stage := GET_ORIGIN, processing := false }, noEff)
    | ASK_DESTINATION =>
      ({ s with stage := GET_DESTINATION, processing := false },
       speakEff ["And where are you flying to?"])
    | GET_DESTINATION =>
      match env.listen with
      | some t =>
        if t ≠ "" then
          if containsStr t "reset" then handle_reset noEff
          else
            let v := pyTitle (pyStrip t)
            ({ s with last_speech_input := some t
                      user_data := { s.user_data with destination := some v }
                      stage := ASK_CLASS, processing := false },
             speakEff ["Okay, flying to " ++ v ++ "."])
        else
          ({ s with last_speech_input := some t
                    error_message := some "Listening failed. Please try again."
                    stage := GET_DESTINATION, processing := false }, noEff)
      | none =>
        ({ s with last_speech_input := none
                  error_message := some "Listening failed. Please try again."
                  stage := GET_DESTINATION, processing := false }, noEff)
    | ASK_CLASS =>
      ({ s with stage := GET_CLASS, processing := false },
       speakEff ["Which class would you like to fly? (Economy, Business, or First)?"])
    | GET_CLASS =>
      match env.listen with
      | some t =>
        if t ≠ "" then
          if containsStr t "reset" then handle_reset noEff
          else
            match parse_class t with
            | some parsed_class =>
              ({ s with last_speech_input := some t
                        user_data := { s.user_data with cls := some parsed_class }
                        stage := ASK_NAME, processing := false },
               speakEff ["Alright, " ++ parsed_class ++ " class."])
            | none =>
              let error_msg :=
                "I didn\x27t recognize that class. Please say Economy, Business, or First."
              ({ s with last_speech_input := some t
                        error_message := some error_msg
                        stage := GET_CLASS, processing := false },
               speakEff [error_msg])
        else
          ({ s with last_speech_input := some t
                    error_message := some "Listening failed. Please try again."
                    stage := GET_CLASS, processing := false }, noEff)
      | none =>
        ({ s with last_speech_input := none
                  error_message := some "Listening failed. Please try again."
                  stage := GET_CLASS, processing := false }, noEff)
    | ASK_NAME =>
      ({ s with stage := GET_NAME, processing := false },
       speakEff ["What is the full name of the passenger?"])
    | GET_NAME =>
      match env.listen with
      | some t =>
        if t ≠ "" then
          if containsStr t "reset" then handle_reset noEff
          else
            let v := pyTitle (pyStrip t)
            ({ s with last_speech_input := some t
                      user_data := { s.user_data with name := some v }
                      stage := ASK_DOB, processing := false },
             speakEff ["Thank you, " ++ v ++ "."])
        else
          ({ s with last_speech_input := some t
                    error_message := some "Listening failed. Please try again."
                    stage := GET_NAME, processing := false }, noEff)
      | none =>
        ({ s with last_speech_input := none
                  error_message := some "Listening failed. Please try again."
                  stage := GET_NAME, processing := false }, noEff)
    | ASK_DOB =>
      ({ s with stage := GET_DOB, processing := false },
       speakEff ["And what is the passenger\x27s date of birth?"])
    | GET_DOB =>
      match env.listen with
      | some t =>
        if t ≠ "" then
          if containsStr t "reset" then handle_reset noEff
          else
            match try_parse_date_string env t with
            | (_, some parse_error) =>
              ({ s with last_speech_input := some t
                        error_message := some parse_error
                        stage := GET_DOB, processing := false },
               speakEff [parse_error])
            | (some parsed_dob_str, none) =>
              let dob_date := strptimeISO parsed_dob_str
              -- Python `dob_date >= today_date` is the negation of `<`
              -- on the total order of dates.
              if !(CalDate.lt dob_date env.today) then
                let error_msg :=
                  "Date of birth cannot be today or in the future. Please state the correct date of birth."
                ({ s with last_speech_input := some t
                          error_message := some error_msg
                          stage := GET_DOB, processing := false },
                 speakEff [error_msg])
              else
                ({ s with last_speech_input := some t
                          user_data := { s.user_data with dob := some parsed_dob_str }
                          stage := CONFIRM, processing := false },
                 speakEff ["Got it, date of birth " ++ formatLong dob_date ++ "."])
            | (none, none) => (s, noEff) -- unreachable: `try_parse_date_string` always sets one side
        else
          ({ s with last_speech_input := some t
                    error_message := some "Listening failed. Please try again."
                    stage := GET_DOB, processing := false }, noEff)
      | none =>
        ({ s with last_speech_input := none
                  error_message := some "Listening failed. Please try again."
                  stage := GET_DOB, processing := false }, noEff)
    | CONFIRM =>
      let ud := s.user_data
      if fieldTruthy ud.origin && fieldTruthy ud.destination && fieldTruthy ud.date &&
         fieldTruthy ud.cls && fieldTruthy ud.name && fieldTruthy ud.dob then
        let summary :=
          "Okay, let me confirm: You want to fly from " ++ ud.origin.getD "" ++
          " to " ++ ud.destination.getD "" ++ " on " ++
          formatLong (strptimeISO (ud.date.getD "")) ++ " in " ++
          ud.cls.getD "" ++ " class. The passenger\x27s name is " ++
          ud.name.getD "" ++ " with date of birth " ++
          formatLong (strptimeISO (ud.dob.getD "")) ++ ". Is this correct?"
        ({ s with stage := GET_CONFIRMATION, processing := false },
         speakEff [summary])
      else
        let missing_data :=
          (if fieldTruthy ud.origin then [] else ["origin"]) ++
          (if fieldTruthy ud.destination then [] else ["destination"]) ++
          (if fieldTruthy ud.date then [] else ["date"]) ++
          (if fieldTruthy ud.cls then [] else ["class"]) ++
          (if fieldTruthy ud.name then [] else ["name"]) ++
          (if fieldTruthy ud.dob then [] else ["dob"])
        let error_msg :=
          "Something went wrong, I seem to be missing some details (" ++
          String.intercalate ", " missing_data ++ "). Let\x27s start over."
        handle_reset (speakEff [error_msg])
    | GET_CONFIRMATION =>
      match env.listen with
      | some t =>
        if t ≠ "" then
          if containsStr t "reset" then handle_reset noEff
          else if containsStr t "yes" || containsStr t "correct" || containsStr t "yeah" then
            ({ s with last_speech_input := some t
                      stage := QUERYING, processing := false },
             speakEff ["Great! Searching for flights now."])
          else if containsStr t "no" || containsStr t "incorrect" then
            handle_reset (speakEff ["Okay, let\x27s start over to correct the details."])
          else
            ({ s with last_speech_input := some t
                      stage := GET_CONFIRMATION, processing := false },
             speakEff ["Sorry, I didn\x27t understand if that was a yes or no. Please say \x27Yes\x27 to confirm or \x27No\x27 to restart."])
        else
          ({ s with last_speech_input := some t
                    error_message := some "Listening failed. Please try again."
                    stage := GET_CONFIRMATION, processing := false }, noEff)
      | none =>
        ({ s with last_speech_input := none
                  error_message := some "Listening failed. Please try again."
                  stage := GET_CONFIRMATION, processing := false }, noEff)
    | QUERYING =>
      let flight_details : FlightDetails :=
        { origin := s.user_data.origin
          destination := s.user_data.destination
          date := s.user_data.date
          cls := s.user_data.cls }
      let sql_query := env.genQuery flight_details
      match sql_query with
      | some q =>
        let results := env.execQuery q
        match results with
        | some _ =>
          ({ s with sql_query := some q
                    flight_results := results
                    stage := SHOW_RESULTS, processing := false },
           { spoken := [], dbCalls := [q] })
        | none =>
          let error_msg := "There was an error querying the database."
          ({ s with sql_query := some q
                    flight_results := none
                    error_message := some error_msg
                    stage := ERROR, processing := false },
           { spoken := [error_msg], dbCalls := [q] })
      | none =>
        let error_msg := "Could not generate the flight search query using the AI model."
        ({ s with sql_query := none
                  error_message := some error_msg
                  stage := ERROR, processing := false },
         speakEff [error_msg])
    | SHOW_RESULTS =>
      let countMsg :=
        match s.flight_results with
        | some rows =>
          if rows ≠ [] then
            let num_flights := rows.length
            "Okay, I found " ++ toString num_flights ++ " flight" ++
            (if num_flights ≠ 1 then "s" else "") ++
            " matching your criteria. Please see the details on screen."
          else
            "Sorry, I couldn\x27t find any flights matching your exact criteria for that date."
        | none =>
          "Sorry, I couldn\x27t find any flights matching your exact criteria for that date."
      ({ s with stage := DONE, processing := false },
       speakEff [countMsg, "Would you like to search again?"])
    | ERROR => ({ s with processing := false }, noEff)
    | DONE => ({ s with processing := false }, noEff)
    | INIT => (s, noEff) -- handled by the first branch


/-- The session state that `handle_reset` installs. -/
def resetAppState : AppState :=
  { stage := INIT
    user_data := emptyUserData
    last_speech_input := some ""
    error_message := none
    sql_query := none
    flight_results := none
    processing := false }

/-- A fully collected Booking Record used as concrete witness data. -/
def fullUserData : UserData :=
  { name := some "Jane Doe"
    dob := some "1990-05-10"
    date := some "2026-10-20"
    origin := some "Mumbai"
    destination := some "Delhi"
    cls := some "Economy" }

/-- A concrete session at the given stage, used as witness data. -/
def sampleState (st : Stage) : AppState :=
  { stage := st
    user_data := fullUserData
    last_speech_input := none
    error_message := none
    sql_query := none
    flight_results := none
    processing := false }

/-- A concrete environment for witnesses. -/
def sampleEnv (inp : Option String) : Env :=
  { listen := inp
    today := ⟨2026, 10, 12⟩
    parseDate := fun _ => none
    genQuery := fun _ => none
    execQuery := fun _ => none }

/-- Modelled from the spec: leap years of the proleptic Gregorian
calendar, needed to give meaning to the relative date "tomorrow" that
the external `dateutil` parser (not part of `src/`) resolves. -/
def isLeap (yy : Nat) : Bool :=
  (yy % 4 == 0 && yy % 100 != 0) || yy % 400 == 0

/-- Modelled from the spec: days in a month of the Gregorian calendar. -/
def daysInMonth (yy mm : Nat) : Nat :=
  if mm = 2 then (if isLeap yy then 29 else 28)
  else if mm = 4 || mm = 6 || mm = 9 || mm = 11 then 30
  else 31

/-- Modelled from the spec: the calendar date one day after `c`
("tomorrow" relative to `c`). -/
def nextDay (c : CalDate) : CalDate :=
  if c.d + 1 ≤ daysInMonth c.y c.m then ⟨c.y, c.m, c.d + 1⟩
  else if c.m + 1 ≤ 12 then ⟨c.y, c.m + 1, 1⟩
  else ⟨c.y + 1, 1, 1⟩

/-- Modelled from the spec: month names understood by the permissive
date parser. -/
def monthNum : String → Option Nat
  | "january" => some 1
  | "february" => some 2
  | "march" => some 3
  | "april" => some 4
  | "may" => some 5
  | "june" => some 6
  | "july" => some 7
  | "august" => some 8
  | "september" => some 9
  | "october" => some 10
  | "november" => some 11
  | "december" => some 12
  | _ => none

/-- Modelled from the spec: the permissive natural-language date parser
behind `try_parse_date_string` (the external `dateutil.parser.parse`,
which is not part of `src/`).  The spec requires it to understand
relative terms like "tomorrow" as well as absolute forms such as
"may 10 1990" (month name, day, year). -/
def specParseDate (today : CalDate) (t : String) : Option CalDate :=
  if t = "tomorrow" then some (nextDay today)
  else
    match splitWords (pyStrip t).data with
    | [mw, dw, yw] =>
      match monthNum (String.mk mw), readNatL dw, readNatL yw with
      | some mm, some dd, some yy => some ⟨yy, mm, dd⟩
      | _, _, _ => none
    | _ => none

/-- Run one dispatch per list element, the element being the transcript
`voice_utils.listen` returns during that dispatch (prompt stages do not
call `listen` and ignore it). -/
def runSteps (base : Env) (inputs : List (Option String)) (s : AppState) : AppState :=
  inputs.foldl (fun st i => (step { base with listen := i } st).1) s

/-- The session right after "Start Booking" is clicked on a fresh
session: stage `ASK_DATE`, empty Booking Record. -/
def c4Start : AppState :=
  { stage := ASK_DATE
    user_data := emptyUserData
    last_speech_input := some ""
    error_message := none
    sql_query := none
    flight_results := none
    processing := false }

/-- The environment for the end-to-end scenario: the date parser is the
spec-modelled one, relative to `today`. -/
def c4Env (today : CalDate) : Env :=
  { listen := none
    today := today
    parseDate := specParseDate today
    genQuery := fun _ => none
    execQuery := fun _ => none }

/-- The listen transcripts of the end-to-end scenario of the spec,
interleaved with the prompt stages (which consume no input). -/
def c4Inputs : List (Option String) :=
  [none, some "tomorrow",
   none, some "mumbai",
   none, some "delhi",
   none, some "economy class",
   none, some "jane doe",
   none, some "may 10 1990",
   none, some "yes"]

/-- A transcript containing "reset" is non-empty (so Python truthiness
of the transcript holds whenever the reset check fires). -/
theorem ne_empty_of_containsStr_reset (t : String)
    (h : containsStr t "reset" = true) : t ≠ "" := by
  intro he
  subst he
  simp [containsStr, containsSub, leadsWith] at h

/-- A list is matched at the head of itself followed by anything. -/
theorem leadsWith_self_append (p t : List Char) :
    leadsWith p (p ++ t) = true := by
  induction p with
  | nil => simp [leadsWith]
  | cons a as ih => simp [leadsWith, ih]

/-- Substring search succeeds on the pattern followed by anything. -/
theorem containsSub_self_append (p t : List Char) :
    containsSub p (p ++ t) = true := by
  cases hp : p ++ t with
  | nil => simp [containsSub, ← hp, leadsWith_self_append]
  | cons b bs => simp [containsSub, ← hp, leadsWith_self_append]

/-- Substring search is stable under prepending. -/
theorem containsSub_append_left (a : List Char) {p l : List Char}
    (h : containsSub p l = true) : containsSub p (a ++ l) = true := by
  induction a with
  | nil => simpa using h
  | cons x xs ih => simp [containsSub, ih]

/-- Head matching is stable under appending on the right. -/
theorem leadsWith_append_right {p t : List Char} (b : List Char)
    (h : leadsWith p t = true) : leadsWith p (t ++ b) = true := by
  induction p generalizing t with
  | nil => simp [leadsWith]
  | cons x xs ih =>
    cases t with
    | nil => simp [leadsWith] at h
    | cons c cs =>
      simp [leadsWith] at h
      simp [leadsWith, h.1, ih h.2]

/-- Substring search is stable under appending on the right. -/
theorem containsSub_append_right {p t : List Char} (b : List Char)
    (h : containsSub p t = true) : containsSub p (t ++ b) = true := by
  induction t with
  | nil =>
    simp [containsSub] at h
    cases p with
    | nil => cases b <;> simp [containsSub, leadsWith]
    | cons x xs => simp [leadsWith] at h
  | cons c cs ih =>
    simp [containsSub] at h
    rcases h with h | h
    · simpa [containsSub] using Or.inl (leadsWith_append_right b h)
    · simpa [containsSub] using Or.inr (ih h)

/-- Every string is a substring of itself. -/
theorem containsStr_refl (p : String) : containsStr p p = true := by
  have := containsSub_self_append p.data []
  simpa [containsStr] using this

/-- Substring containment survives prepending more text. -/
theorem containsStr_append_left (a : String) {s p : String}
    (h : containsStr s p = true) : containsStr (a ++ s) p = true := by
  simpa [containsStr, String.data_append] using
    containsSub_append_left a.data h

/-- Substring containment survives appending more text. -/
theorem containsStr_append_right (b : String) {s p : String}
    (h : containsStr s p = true) : containsStr (s ++ b) p = true := by
  simpa [containsStr, String.data_append] using
    containsSub_append_right b.data h

/-- Decoding inverts encoding for a single decimal digit. -/
theorem digitVal_digitChar (n : Nat) (h : n < 10) :
    digitVal (digitChar n) = some n := by
  unfold digitVal digitChar
  interval_cases n <;> decide

/-- The character list behind `strftime("%Y-%m-%d")`. -/
theorem formatDate_data (c : CalDate) :
    (formatDate c).data =
      [digitChar (c.y / 1000), digitChar (c.y / 100 % 10),
       digitChar (c.y / 10 % 10), digitChar (c.y % 10), '-',
       digitChar (c.m / 10), digitChar (c.m % 10), '-',
       digitChar (c.d / 10), digitChar (c.d % 10)] := by
  simp [formatDate, pad4, pad2, String.data_append]

/-- `strftime("%Y-%m-%d")` never produces the empty string. -/
theorem formatDate_ne_empty (c : CalDate) : formatDate c ≠ "" := by
  intro h
  have hd := formatDate_data c
  rw [h] at hd
  simp at hd

/-- Parsing inverts formatting for every value a Python `date` can
hold. -/
theorem parseISO_formatDate (c : CalDate)
    (hy : c.y < 10000) (hm : c.m < 100) (hd : c.d < 100) :
    parseISO (formatDate c) = some c := by
  obtain ⟨yy, mm, dd⟩ := c
  dsimp only at hy hm hd
  have h1 := digitVal_digitChar (yy / 1000) (by omega)
  have h2 := digitVal_digitChar (yy / 100 % 10) (by omega)
  have h3 := digitVal_digitChar (yy / 10 % 10) (by omega)
  have h4 := digitVal_digitChar (yy % 10) (by omega)
  have h5 := digitVal_digitChar (mm / 10) (by omega)
  have h6 := digitVal_digitChar (mm % 10) (by omega)
  have h7 := digitVal_digitChar (dd / 10) (by omega)
  have h8 := digitVal_digitChar (dd % 10) (by omega)
  unfold parseISO
  rw [formatDate_data]
  simp [h1, h2, h3, h4, h5, h6, h7, h8]
  refine ⟨by omega, by omega, by omega⟩

/-- `strptime` inverts `strftime` for every value a Python `date` can
hold. -/
theorem strptimeISO_formatDate (c : CalDate)
    (hy : c.y < 10000) (hm : c.m < 100) (hd : c.d < 100) :
    strptimeISO (formatDate c) = c := by
  simp [strptimeISO, parseISO_formatDate c hy hm hd]

/-- Tomorrow is never before today. -/
theorem nextDay_not_lt (c : CalDate) : CalDate.lt (nextDay c) c = false := by
  obtain ⟨yy, mm, dd⟩ := c
  unfold nextDay CalDate.lt
  split_ifs <;> simp

/-- Claim C1: in every listen state, whatever the prior Booking Record
and whatever the external collaborators do, a captured transcript
containing the substring "reset" makes the dispatch perform a full
reset: all six record fields become absent, the transient state is
cleared, and the stage becomes `INIT` — independently of any
slot-specific parsing or keyword matching (the result does not depend
on the date parser, the classifier keywords, or the prior record). -/
theorem claim_C1_reset_global (env : Env) (s : AppState) (t : String)
    (hls : isListenStage s.stage = true) (hproc : s.processing = false)
    (hin : env.listen = some t) (hreset : containsStr t "reset" = true) :
    (step env s).1 = resetAppState := by
  have ht : t ≠ "" := ne_empty_of_containsStr_reset t hreset
  cases hstage : s.stage <;>
    simp [hstage, isListenStage] at hls <;>
    simp [step, hstage, hproc, hin, ht, hreset, handle_reset, resetAppState]

/-- Witness for C1: a concrete reset transcript in `GET_DATE` with
partial progress already collected. -/
theorem claim_C1_reset_global_witness :
    (step (sampleEnv (some "please reset everything")) (sampleState GET_DATE)).1 =
      resetAppState :=
  claim_C1_reset_global (sampleEnv (some "please reset everything"))
    (sampleState GET_DATE) "please reset everything" (by decide) (by decide)
    rfl (by decide)

/-- Claim C2: in `GET_CONFIRMATION`, for a present non-empty
transcript: the reset check comes first and forces a full reset; else
any of "yes"/"correct"/"yeah" advances to `QUERYING`; else any of
"no"/"incorrect" forces a full reset (a rejection, not a retry); else
the controller speaks a yes/no clarification and re-enters
`GET_CONFIRMATION`. -/
theorem claim_C2_confirmation (env : Env) (s : AppState) (t : String)
    (hst : s.stage = GET_CONFIRMATION) (hproc : s.processing = false)
    (hin : env.listen = some t) (ht : t ≠ "") :
    (containsStr t "reset" = true → (step env s).1 = resetAppState) ∧
    (containsStr t "reset" = false →
      (containsStr t "yes" || containsStr t "correct" || containsStr t "yeah") = true →
      (step env s).1 =
        { s with last_speech_input := some t, stage := QUERYING, processing := false } ∧
      (step env s).2.spoken = ["Great! Searching for flights now."]) ∧
    (containsStr t "reset" = false →
      (containsStr t "yes" || containsStr t "correct" || containsStr t "yeah") = false →
      (containsStr t "no" || containsStr t "incorrect") = true →
      (step env s).1 = resetAppState) ∧
    (containsStr t "reset" = false →
      (containsStr t "yes" || containsStr t "correct" || containsStr t "yeah") = false →
      (containsStr t "no" || containsStr t "incorrect") = false →
      (step env s).1 =
        { s with last_speech_input := some t, stage := GET_CONFIRMATION, processing := false } ∧
      (step env s).2.spoken =
        ["Sorry, I didn\x27t understand if that was a yes or no. Please say \x27Yes\x27 to confirm or \x27No\x27 to restart."]) := by
  refine ⟨fun hr => ?_, fun hr hy => ?_, fun hr hy hn => ?_, fun hr hy hn => ?_⟩
  · simp [step, hst, hproc, hin, ht, hr, handle_reset, resetAppState]
  · simp [step, hst, hproc, hin, ht, hr, hy, speakEff]
  · simp [step, hst, hproc, hin, ht, hr, hy, hn, handle_reset, resetAppState, speakEff]
  · simp [step, hst, hproc, hin, ht, hr, hy, hn, speakEff]

/-- Witness for C2: a concrete "yes" answer advances to `QUERYING`. -/
theorem claim_C2_confirmation_witness :
    (step (sampleEnv (some "yes")) (sampleState GET_CONFIRMATION)).1.stage =
      QUERYING := by
  have h := claim_C2_confirmation (sampleEnv (some "yes"))
    (sampleState GET_CONFIRMATION) "yes" rfl rfl rfl (by decide)
  rw [(h.2.1 (by decide) (by decide)).1]

/-- Claim C3: for a parse-success transcript denoting date `d` (any
value a Python `date` can hold): `GET_DATE` stores `d` as `YYYY-MM-DD`
and advances to `ASK_ORIGIN` exactly when `d` is not before today, and
otherwise rejects with the departure-specific message, leaves the
record unchanged and re-enters `GET_DATE`; `GET_DOB` stores `d` and
advances to `CONFIRM` exactly when `d` is strictly before today, and
otherwise rejects with the date-of-birth message and re-enters
`GET_DOB`. -/
theorem claim_C3_date_validation (env : Env) (s : AppState) (t : String) (d : CalDate)
    (hproc : s.processing = false) (hin : env.listen = some t) (ht : t ≠ "")
    (hr : containsStr t "reset" = false) (hp : env.parseDate t = some d)
    (hy : d.y < 10000) (hm : d.m < 100) (hdd : d.d < 100) :
    (s.stage = GET_DATE →
      (CalDate.lt d env.today = false →
        (step env s).1 =
          { s with last_speech_input := some t
                   user_data := { s.user_data with date := some (formatDate d) }
                   stage := ASK_ORIGIN, processing := false }) ∧
      (CalDate.lt d env.today = true →
        (step env s).1 =
          { s with last_speech_input := some t
                   error_message := some "Departure date cannot be in the past. Please provide a date from today onwards."
                   stage := GET_DATE, processing := false })) ∧
    (s.stage = GET_DOB →
      (CalDate.lt d env.today = true →
        (step env s).1 =
          { s with last_speech_input := some t
                   user_data := { s.user_data with dob := some (formatDate d) }
                   stage := CONFIRM, processing := false }) ∧
      (CalDate.lt d env.today = false →
        (step env s).1 =
          { s with last_speech_input := some t
                   error_message := some "Date of birth cannot be today or in the future. Please state the correct date of birth."
                   stage := GET_DOB, processing := false })) := by
  have hrt := strptimeISO_formatDate d hy hm hdd
  refine ⟨fun hst => ⟨fun hlt => ?_, fun hlt => ?_⟩,
          fun hst => ⟨fun hlt => ?_, fun hlt => ?_⟩⟩ <;>
    simp [step, hst, hproc, hin, ht, hr, try_parse_date_string, hp, hrt, hlt, speakEff]

/-- Witness for C3: a concrete future date accepted in `GET_DATE`. -/
theorem claim_C3_date_validation_witness :
    (step { sampleEnv (some "december 1 2026") with
              parseDate := fun _ => some ⟨2026, 12, 1⟩ }
       (sampleState GET_DATE)).1.stage = ASK_ORIGIN := by
  have h := claim_C3_date_validation
    { sampleEnv (some "december 1 2026") with parseDate := fun _ => some ⟨2026, 12, 1⟩ }
    (sampleState GET_DATE) "december 1 2026" ⟨2026, 12, 1⟩
    rfl rfl (by decide) (by decide) rfl (by decide) (by decide) (by decide)
  rw [(h.1 rfl).1 (by decide)]

/-- Claim C5: in `GET_CLASS`, a present non-reset transcript is
classified case-insensitively against the keyword sets
Economy {"economy","coach"}, Business {"business"},
First {"first","1st"}, in that fixed order with the first matching set
winning (so "economy" together with "first" resolves to Economy); a
recognised class is stored and the stage advances to `ASK_NAME`, and an
unrecognised transcript re-enters `GET_CLASS` with a message naming the
three classes. -/
theorem claim_C5_class_matching (env : Env) (s : AppState) (t : String)
    (hst : s.stage = GET_CLASS) (hproc : s.processing = false)
    (hin : env.listen = some t) (ht : t ≠ "")
    (hr : containsStr t "reset" = false) :
    (∀ c, parse_class t = some c →
      (step env s).1 =
        { s with last_speech_input := some t
                 user_data := { s.user_data with cls := some c }
                 stage := ASK_NAME, processing := false }) ∧
    (parse_class t = none →
      (step env s).1 =
        { s with last_speech_input := some t
                 error_message := some "I didn\x27t recognize that class. Please say Economy, Business, or First."
                 stage := GET_CLASS, processing := false }) ∧
    ((containsStr (strLower t) "economy" || containsStr (strLower t) "coach") = true →
      parse_class t = some "Economy") ∧
    ((containsStr (strLower t) "economy" || containsStr (strLower t) "coach") = false →
      containsStr (strLower t) "business" = true →
      parse_class t = some "Business") ∧
    ((containsStr (strLower t) "economy" || containsStr (strLower t) "coach") = false →
      containsStr (strLower t) "business" = false →
      (containsStr (strLower t) "first" || containsStr (strLower t) "1st") = true →
      parse_class t = some "First") ∧
    ((containsStr (strLower t) "economy" || containsStr (strLower t) "coach") = false →
      containsStr (strLower t) "business" = false →
      (containsStr (strLower t) "first" || containsStr (strLower t) "1st") = false →
      parse_class t = none) := by
  refine ⟨fun c hc => ?_, fun hc => ?_, fun h1 => ?_, fun h1 h2 => ?_,
          fun h1 h2 h3 => ?_, fun h1 h2 h3 => ?_⟩
  · simp [step, hst, hproc, hin, ht, hr, hc, speakEff]
  · simp [step, hst, hproc, hin, ht, hr, hc, speakEff]
  · simp [parse_class, h1]
  · simp [parse_class, h1, h2]
  · simp [parse_class, h1, h2, h3]
  · simp [parse_class, h1, h2, h3]

/-- Witness for C5: "first class or economy" contains keywords of both
the Economy and the First set and resolves to Economy. -/
theorem claim_C5_class_matching_witness :
    (step (sampleEnv (some "first class or economy"))
       (sampleState GET_CLASS)).1.user_data.cls = some "Economy" := by
  have h := claim_C5_class_matching (sampleEnv (some "first class or economy"))
    (sampleState GET_CLASS) "first class or economy" rfl rfl rfl
    (by decide) (by decide)
  rw [h.1 "Economy" (h.2.2.1 (by decide))]

/-- Claim C6: in every listen state, every retryable-error outcome
(absent input, empty transcript, date parse failure, date range
failure, unrecognised class, unrecognised yes/no) leaves every Booking
Record field exactly as it was and re-enters the same listen state. -/
theorem claim_C6_retry_frame (env : Env) (s : AppState)
    (hls : isListenStage s.stage = true) (hproc : s.processing = false) :
    ((env.listen = none ∨ env.listen = some "") →
      (step env s).1.user_data = s.user_data ∧ (step env s).1.stage = s.stage) ∧
    (∀ t, env.listen = some t → t ≠ "" → containsStr t "reset" = false →
      ((s.stage = GET_DATE ∨ s.stage = GET_DOB) → env.parseDate t = none →
        (step env s).1.user_data = s.user_data ∧ (step env s).1.stage = s.stage) ∧
      (s.stage = GET_DATE → ∀ d, env.parseDate t = some d →
        d.y < 10000 → d.m < 100 → d.d < 100 → CalDate.lt d env.today = true →
        (step env s).1.user_data = s.user_data ∧ (step env s).1.stage = s.stage) ∧
      (s.stage = GET_DOB → ∀ d, env.parseDate t = some d →
        d.y < 10000 → d.m < 100 → d.d < 100 → CalDate.lt d env.today = false →
        (step env s).1.user_data = s.user_data ∧ (step env s).1.stage = s.stage) ∧
      (s.stage = GET_CLASS → parse_class t = none →
        (step env s).1.user_data = s.user_data ∧ (step env s).1.stage = s.stage) ∧
      (s.stage = GET_CONFIRMATION →
        (containsStr t "yes" || containsStr t "correct" || containsStr t "yeah") = false →
        (containsStr t "no" || containsStr t "incorrect") = false →
        (step env s).1.user_data = s.user_data ∧ (step env s).1.stage = s.stage)) := by
  refine ⟨?_, fun t hin htne hr => ⟨?_, ?_, ?_, ?_, ?_⟩⟩
  · rintro (h | h) <;>
      cases hstage : s.stage <;> simp [hstage, isListenStage] at hls <;>
      simp [step, hstage, hproc, h]
  · rintro (hstage | hstage) hpn <;>
      simp [step, hstage, hproc, hin, htne, hr, try_parse_date_string, hpn, speakEff]
  · rintro hstage d hpd hy hm hd hlt
    simp [step, hstage, hproc, hin, htne, hr, try_parse_date_string, hpd,
          strptimeISO_formatDate d hy hm hd, hlt, speakEff]
  · rintro hstage d hpd hy hm hd hlt
    simp [step, hstage, hproc, hin, htne, hr, try_parse_date_string, hpd,
          strptimeISO_formatDate d hy hm hd, hlt, speakEff]
  · rintro hstage hpc
    simp [step, hstage, hproc, hin, htne, hr, hpc, speakEff]
  · rintro hstage hy hn
    simp [step, hstage, hproc, hin, htne, hr, hy, hn, speakEff]

/-- Witness for C6: an absent input in `GET_CLASS` leaves record and
stage unchanged. -/
theorem claim_C6_retry_frame_witness :
    (step (sampleEnv none) (sampleState GET_CLASS)).1.user_data =
        (sampleState GET_CLASS).user_data ∧
    (step (sampleEnv none) (sampleState GET_CLASS)).1.stage =
        (sampleState GET_CLASS).stage :=
  (claim_C6_retry_frame (sampleEnv none) (sampleState GET_CLASS)
    (by decide) rfl).1 (Or.inl rfl)

/-- Claim C8: in `QUERYING`, an absent result from query generation
goes to terminal `ERROR` with the generation-failure message (distinct
from the database-failure message) and the Flight Store is never
called; a generated query whose execution returns an absent result goes
to `ERROR` with the database-failure message; a present row list —
including the empty list — goes to `SHOW_RESULTS`. -/
theorem claim_C8_querying (env : Env) (s : AppState)
    (hst : s.stage = QUERYING) (hproc : s.processing = false) :
    (env.genQuery ⟨s.user_data.origin, s.user_data.destination,
                   s.user_data.date, s.user_data.cls⟩ = none →
      (step env s).1.stage = ERROR ∧
      (step env s).1.error_message =
        some "Could not generate the flight search query using the AI model." ∧
      (step env s).2.dbCalls = [] ∧
      ("Could not generate the flight search query using the AI model." : String) ≠
        "There was an error querying the database.") ∧
    (∀ q, env.genQuery ⟨s.user_data.origin, s.user_data.destination,
                        s.user_data.date, s.user_data.cls⟩ = some q →
      env.execQuery q = none →
      (step env s).1.stage = ERROR ∧
      (step env s).1.error_message = some "There was an error querying the database.") ∧
    (∀ q rows, env.genQuery ⟨s.user_data.origin, s.user_data.destination,
                             s.user_data.date, s.user_data.cls⟩ = some q →
      env.execQuery q = some rows →
      (step env s).1.stage = SHOW_RESULTS ∧
      (step env s).1.flight_results = some rows) := by
  refine ⟨fun hg => ⟨?_, ?_, ?_, by decide⟩,
          fun q hg he => ?_, fun q rows hg he => ?_⟩ <;>
    simp [step, hst, hproc, hg, speakEff] <;>
    simp [he]

/-- Witness for C8: a generated query executed to a present empty list
reaches `SHOW_RESULTS`. -/
theorem claim_C8_querying_witness :
    (step { sampleEnv none with
              genQuery := fun _ => some "SELECT * FROM flights"
              execQuery := fun _ => some [] }
       (sampleState QUERYING)).1.stage = SHOW_RESULTS :=
  ((claim_C8_querying
      { sampleEnv none with
          genQuery := fun _ => some "SELECT * FROM flights"
          execQuery := fun _ => some [] }
      (sampleState QUERYING) rfl rfl).2.2 "SELECT * FROM flights" [] rfl rfl).1

/-- Claim C9 counterexample: with a present empty result list the
`SHOW_RESULTS` dispatch does not announce a "found 0 flights" count; it
speaks the no-matches apology instead (and then the closing prompt). -/
theorem claim_C9_counterexample :
    (step (sampleEnv none)
        { sampleState SHOW_RESULTS with flight_results := some [] }).2.spoken =
      ["Sorry, I couldn\x27t find any flights matching your exact criteria for that date.",
       "Would you like to search again?"] ∧
    ∀ u ∈ (step (sampleEnv none)
        { sampleState SHOW_RESULTS with flight_results := some [] }).2.spoken,
      containsStr u "found 0" = false := by
  refine ⟨?_, ?_⟩
  · simp [step, speakEff, sampleState, fullUserData]
  · simp [step, speakEff, sampleState, fullUserData]
    decide

/-- Claim C9 (amended): in `SHOW_RESULTS`, for every present result
list the dispatch unconditionally transitions to `DONE` and speaks a
closing prompt; for a non-empty list it announces the count of matches
with correct singular/plural phrasing, while for the empty list it
speaks a no-matches apology rather than a count announcement. -/
theorem claim_C9_show_results (env : Env) (s : AppState) (rows : List Row)
    (hst : s.stage = SHOW_RESULTS) (hproc : s.processing = false)
    (hres : s.flight_results = some rows) :
    (step env s).1 = { s with stage := DONE, processing := false } ∧
    (rows.length = 1 →
      (step env s).2.spoken =
        ["Okay, I found " ++ toString rows.length ++
           " flight matching your criteria. Please see the details on screen.",
         "Would you like to search again?"]) ∧
    (rows ≠ [] → rows.length ≠ 1 →
      (step env s).2.spoken =
        ["Okay, I found " ++ toString rows.length ++
           " flights matching your criteria. Please see the details on screen.",
         "Would you like to search again?"]) ∧
    (rows = [] →
      (step env s).2.spoken =
        ["Sorry, I couldn\x27t find any flights matching your exact criteria for that date.",
         "Would you like to search again?"]) := by
  refine ⟨?_, fun hlen => ?_, fun hne hlen => ?_, fun hnil => ?_⟩
  · simp [step, hst, hproc, hres, speakEff]
  · have hne : rows ≠ [] := by
      intro h
      rw [h] at hlen
      simp at hlen
    simp [step, hst, hproc, hres, hne, hlen, speakEff]
    exact String.ext (by simp [String.data_append])
  · simp [step, hst, hproc, hres, hne, hlen, speakEff]
    exact String.ext (by simp [String.data_append])
  · simp [step, hst, hproc, hres, hnil, speakEff]

/-- Witness for C9 (amended): one row yields the singular phrasing. -/
theorem claim_C9_show_results_witness :
    (step (sampleEnv none)
        { sampleState SHOW_RESULTS with
            flight_results := some [[("airline", "Indigo")]] }).2.spoken =
      ["Okay, I found 1 flight matching your criteria. Please see the details on screen.",
       "Would you like to search again?"] := by
  have h := (claim_C9_show_results (sampleEnv none)
    { sampleState SHOW_RESULTS with flight_results := some [[("airline", "Indigo")]] }
    [[("airline", "Indigo")]] rfl rfl rfl).2.1 (by decide)
  rw [h]
  decide

/-- Claim C10: in every listen state, an empty-string transcript is
treated like absent input: the "Listening failed" error message is set,
the same listen state is re-entered, no Booking Record field is
mutated, and nothing is accepted as a slot value (nothing is spoken
either, matching the absent-input path). -/
theorem claim_C10_empty_transcript (env : Env) (s : AppState)
    (hls : isListenStage s.stage = true) (hproc : s.processing = false)
    (hin : env.listen = some "") :
    (step env s).1.stage = s.stage ∧
    (step env s).1.user_data = s.user_data ∧
    (step env s).1.error_message = some "Listening failed. Please try again." ∧
    (step env s).2.spoken = [] := by
  cases hstage : s.stage <;> simp [hstage, isListenStage] at hls <;>
    simp [step, hstage, hproc, hin, noEff]

/-- Witness for C10: an empty transcript in `GET_ORIGIN` (a free-text
slot) is not stored as the origin. -/
theorem claim_C10_empty_transcript_witness :
    (step (sampleEnv (some "")) (sampleState GET_ORIGIN)).1.user_data =
        (sampleState GET_ORIGIN).user_data ∧
    (step (sampleEnv (some "")) (sampleState GET_ORIGIN)).1.error_message =
        some "Listening failed. Please try again." := by
  have h := claim_C10_empty_transcript (sampleEnv (some ""))
    (sampleState GET_ORIGIN) (by decide) rfl rfl
  exact ⟨h.2.1, h.2.2.1⟩

/-- A string contains its own final segment. -/
theorem containsStr_prefix_mid (a : String) {p : String} :
    containsStr (a ++ p) p = true :=
  containsStr_append_left a (containsStr_refl p)

/-- Claim C7: in `CONFIRM`, when all six Booking Record fields are set
(present and non-empty, the truthiness the source checks), the dispatch
speaks one summary that mentions all six collected values (the dates in
their spoken long form) and advances to `GET_CONFIRMATION`; when any
field is missing, it announces exactly the missing field names inside
the missing-details message and performs a full reset (record cleared,
stage `INIT`) instead of retrying or advancing. -/
theorem claim_C7_confirm (env : Env) (s : AppState)
    (hst : s.stage = CONFIRM) (hproc : s.processing = false) :
    ((fieldTruthy s.user_data.origin && fieldTruthy s.user_data.destination &&
      fieldTruthy s.user_data.date && fieldTruthy s.user_data.cls &&
      fieldTruthy s.user_data.name && fieldTruthy s.user_data.dob) = true →
      (step env s).1 = { s with stage := GET_CONFIRMATION, processing := false } ∧
      (step env s).2.spoken.length = 1 ∧
      containsStr ((step env s).2.spoken.headD "") (s.user_data.origin.getD "") = true ∧
      containsStr ((step env s).2.spoken.headD "") (s.user_data.destination.getD "") = true ∧
      containsStr ((step env s).2.spoken.headD "")
        (formatLong (strptimeISO (s.user_data.date.getD ""))) = true ∧
      containsStr ((step env s).2.spoken.headD "") (s.user_data.cls.getD "") = true ∧
      containsStr ((step env s).2.spoken.headD "") (s.user_data.name.getD "") = true ∧
      containsStr ((step env s).2.spoken.headD "")
        (formatLong (strptimeISO (s.user_data.dob.getD ""))) = true) ∧
    ((fieldTruthy s.user_data.origin && fieldTruthy s.user_data.destination &&
      fieldTruthy s.user_data.date && fieldTruthy s.user_data.cls &&
      fieldTruthy s.user_data.name && fieldTruthy s.user_data.dob) = false →
      (step env s).1 = resetAppState ∧
      (step env s).2.spoken.length = 2 ∧
      (step env s).2.spoken.getLast? = some "Okay, let\x27s start over." ∧
      containsStr ((step env s).2.spoken.headD "") "missing some details" = true ∧
      (containsStr ((step env s).2.spoken.headD "") "origin" = true ↔
        fieldTruthy s.user_data.origin = false) ∧
      (containsStr ((step env s).2.spoken.headD "") "destination" = true ↔
        fieldTruthy s.user_data.destination = false) ∧
      (containsStr ((step env s).2.spoken.headD "") "date" = true ↔
        fieldTruthy s.user_data.date = false) ∧
      (containsStr ((step env s).2.spoken.headD "") "class" = true ↔
        fieldTruthy s.user_data.cls = false) ∧
      (containsStr ((step env s).2.spoken.headD "") "name" = true ↔
        fieldTruthy s.user_data.name = false) ∧
      (containsStr ((step env s).2.spoken.headD "") "dob" = true ↔
        fieldTruthy s.user_data.dob = false)) := by
  refine ⟨fun htr => ?_, fun hmiss => ?_⟩
  · have h := htr
    simp only [Bool.and_eq_true] at h
    obtain ⟨⟨⟨⟨⟨h1, h2⟩, h3⟩, h4⟩, h5⟩, h6⟩ := h
    have hst2 : (step env s).1 =
        { s with stage := GET_CONFIRMATION, processing := false } := by
      simp [step, hst, hproc, h1, h2, h3, h4, h5, h6]
    have hs : (step env s).2.spoken =
        ["Okay, let me confirm: You want to fly from " ++ s.user_data.origin.getD "" ++
         " to " ++ s.user_data.destination.getD "" ++ " on " ++
         formatLong (strptimeISO (s.user_data.date.getD "")) ++ " in " ++
         s.user_data.cls.getD "" ++ " class. The passenger\x27s name is " ++
         s.user_data.name.getD "" ++ " with date of birth " ++
         formatLong (strptimeISO (s.user_data.dob.getD "")) ++ ". Is this correct?"] := by
      simp [step, hst, hproc, h1, h2, h3, h4, h5, h6, speakEff]
    refine ⟨hst2, ?_, ?_, ?_, ?_, ?_, ?_, ?_⟩
    · rw [hs]
      rfl
    · rw [hs]
      exact containsStr_append_right _ (containsStr_append_right _
        (containsStr_append_right _ (containsStr_append_right _
        (containsStr_append_right _ (containsStr_append_right _
        (containsStr_append_right _ (containsStr_append_right _
        (containsStr_append_right _ (containsStr_append_right _
        (containsStr_append_right _ (containsStr_prefix_mid _)))))))))))
    · rw [hs]
      exact containsStr_append_right _ (containsStr_append_right _
        (containsStr_append_right _ (containsStr_append_right _
        (containsStr_append_right _ (containsStr_append_right _
        (containsStr_append_right _ (containsStr_append_right _
        (containsStr_append_right _ (containsStr_prefix_mid _)))))))))
    · rw [hs]
      exact containsStr_append_right _ (containsStr_append_right _
        (containsStr_append_right _ (containsStr_append_right _
        (containsStr_append_right _ (containsStr_append_right _
        (containsStr_append_right _ (containsStr_prefix_mid _)))))))
    · rw [hs]
      exact containsStr_append_right _ (containsStr_append_right _
        (containsStr_append_right _ (containsStr_append_right _
        (containsStr_append_right _ (containsStr_prefix_mid _)))))
    · rw [hs]
      exact containsStr_append_right _ (containsStr_append_right _
        (containsStr_append_right _ (containsStr_prefix_mid _)))
    · rw [hs]
      exact containsStr_append_right _ (containsStr_prefix_mid _)
  · cases h1 : fieldTruthy s.user_data.origin <;>
    cases h2 : fieldTruthy s.user_data.destination <;>
    cases h3 : fieldTruthy s.user_data.date <;>
    cases h4 : fieldTruthy s.user_data.cls <;>
    cases h5 : fieldTruthy s.user_data.name <;>
    cases h6 : fieldTruthy s.user_data.dob <;>
      simp [step, hst, hproc, h1, h2, h3, h4, h5, h6, handle_reset,
            resetAppState, speakEff, noEff] at hmiss ⊢ <;>
      decide

/-- Witness for C7: the complete sample record yields a summary
mentioning the collected origin "Mumbai" and advances to
`GET_CONFIRMATION`. -/
theorem claim_C7_confirm_witness :
    (step (sampleEnv none) (sampleState CONFIRM)).1.stage = GET_CONFIRMATION ∧
    containsStr ((step (sampleEnv none) (sampleState CONFIRM)).2.spoken.headD "")
      "Mumbai" = true := by
  have h := (claim_C7_confirm (sampleEnv none) (sampleState CONFIRM) rfl rfl).1
    (by decide)
  refine ⟨?_, h.2.2.1⟩
  rw [h.1]

/-- Claim C4: the date parser understands relative terms like
"tomorrow": starting at `ASK_DATE` with an empty Booking Record, the
transcripts "tomorrow", "mumbai", "delhi", "economy class", "jane doe",
"may 10 1990", "yes" (each consumed by its listen stage) drive the
record to date = tomorrow's date (as `YYYY-MM-DD`), origin = "Mumbai",
destination = "Delhi", class = "Economy", name = "Jane Doe",
dob = "1990-05-10", and the conversation to `QUERYING`.  `today` is any
date that 1990-05-10 precedes and whose successor is a representable
`date` value. -/
theorem claim_C4_end_to_end (today : CalDate)
    (hy : (nextDay today).y < 10000) (hm : (nextDay today).m < 100)
    (hd : (nextDay today).d < 100)
    (h90 : CalDate.lt ⟨1990, 5, 10⟩ today = true) :
    (runSteps (c4Env today) c4Inputs c4Start).user_data =
      { name := some "Jane Doe", dob := some "1990-05-10"
        date := some (formatDate (nextDay today))
        origin := some "Mumbai", destination := some "Delhi"
        cls := some "Economy" } ∧
    (runSteps (c4Env today) c4Inputs c4Start).stage = QUERYING := by
  have hrt : strptimeISO (formatDate (nextDay today)) = nextDay today :=
    strptimeISO_formatDate _ hy hm hd
  have hlt : CalDate.lt (nextDay today) today = false := nextDay_not_lt today
  have ctom : specParseDate today "tomorrow" = some (nextDay today) := rfl
  have cmay : specParseDate today "may 10 1990" = some ⟨1990, 5, 10⟩ := rfl
  have fd90 : formatDate ⟨1990, 5, 10⟩ = "1990-05-10" := by decide
  have cmayrt : strptimeISO "1990-05-10" = (⟨1990, 5, 10⟩ : CalDate) := by decide
  have c1 : containsStr "tomorrow" "reset" = false := by decide
  have c2 : containsStr "mumbai" "reset" = false := by decide
  have c3 : containsStr "delhi" "reset" = false := by decide
  have c4 : containsStr "economy class" "reset" = false := by decide
  have c5 : containsStr "jane doe" "reset" = false := by decide
  have c6 : containsStr "may 10 1990" "reset" = false := by decide
  have c7 : containsStr "yes" "reset" = false := by decide
  have cy : (containsStr "yes" "yes" || containsStr "yes" "correct" ||
      containsStr "yes" "yeah") = true := by decide
  have cpc : parse_class "economy class" = some "Economy" := by decide
  have pt1 : pyTitle (pyStrip "mumbai") = "Mumbai" := by decide
  have pt2 : pyTitle (pyStrip "delhi") = "Delhi" := by decide
  have pt3 : pyTitle (pyStrip "jane doe") = "Jane Doe" := by decide
  have ftd : fieldTruthy (some (formatDate (nextDay today))) = true := by
    simp [fieldTruthy, formatDate_ne_empty]
  have ftM : fieldTruthy (some "Mumbai") = true := by decide
  have ftD : fieldTruthy (some "Delhi") = true := by decide
  have ftE : fieldTruthy (some "Economy") = true := by decide
  have ftJ : fieldTruthy (some "Jane Doe") = true := by decide
  have ftB : fieldTruthy (some "1990-05-10") = true := by decide
  have n1 : ("tomorrow" : String) ≠ "" := by decide
  have n2 : ("mumbai" : String) ≠ "" := by decide
  have n3 : ("delhi" : String) ≠ "" := by decide
  have n4 : ("economy class" : String) ≠ "" := by decide
  have n5 : ("jane doe" : String) ≠ "" := by decide
  have n6 : ("may 10 1990" : String) ≠ "" := by decide
  have n7 : ("yes" : String) ≠ "" := by decide
  simp only [runSteps, c4Inputs, List.foldl]
  rw [show (step { c4Env today with listen := none } c4Start).1 =
      { stage := GET_DATE
        user_data := { name := none, dob := none, date := none,
                       origin := none, destination := none, cls := none }
        last_speech_input := some "", error_message := none
        sql_query := none, flight_results := none, processing := false }
    from by simp [step, c4Env, c4Start, emptyUserData]]
  rw [show (step { c4Env today with listen := some "tomorrow" }
      { stage := GET_DATE
        user_data := { name := none, dob := none, date := none,
                       origin := none, destination := none, cls := none }
        last_speech_input := some "", error_message := none
        sql_query := none, flight_results := none, processing := false }).1 =
      { stage := ASK_ORIGIN
        user_data := { name := none, dob := none,
                       date := some (formatDate (nextDay today)),
                       origin := none, destination := none, cls := none }
        last_speech_input := some "tomorrow", error_message := none
        sql_query := none, flight_results := none, processing := false }
    from by simp [step, c4Env, try_parse_date_string, ctom, hrt, hlt, c1, n1]]
  rw [show (step { c4Env today with listen := none }
      { stage := ASK_ORIGIN
        user_data := { name := none, dob := none,
                       date := some (formatDate (nextDay today)),
                       origin := none, destination := none, cls := none }
        last_speech_input := some "tomorrow", error_message := none
        sql_query := none, flight_results := none, processing := false }).1 =
      { stage := GET_ORIGIN
        user_data := { name := none, dob := none,
                       date := some (formatDate (nextDay today)),
                       origin := none, destination := none, cls := none }
        last_speech_input := some "tomorrow", error_message := none
        sql_query := none, flight_results := none, processing := false }
    from by simp [step]]
  rw [show (step { c4Env today with listen := some "mumbai" }
      { stage := GET_ORIGIN
        user_data := { name := none, dob := none,
                       date := some (formatDate (nextDay today)),
                       origin := none, destination := none, cls := none }
        last_speech_input := some "tomorrow", error_message := none
        sql_query := none, flight_results := none, processing := false }).1 =
      { stage := ASK_DESTINATION
        user_data := { name := none, dob := none,
                       date := some (formatDate (nextDay today)),
                       origin := some "Mumbai", destination := none, cls := none }
        last_speech_input := some "mumbai", error_message := none
        sql_query := none, flight_results := none, processing := false }
    from by simp [step, c4Env, c2, n2, pt1]]
  rw [show (step { c4Env today with listen := none }
      { stage := ASK_DESTINATION
        user_data := { name := none, dob := none,
                       date := some (formatDate (nextDay today)),
                       origin := some "Mumbai", destination := none, cls := none }
        last_speech_input := some "mumbai", error_message := none
        sql_query := none, flight_results := none, processing := false }).1 =
      { stage := GET_DESTINATION
        user_data := { name := none, dob := none,
                       date := some (formatDate (nextDay today)),
                       origin := some "Mumbai", destination := none, cls := none }
        last_speech_input := some "mumbai", error_message := none
        sql_query := none, flight_results := none, processing := false }
    from by simp [step]]
  rw [show (step { c4Env today with listen := some "delhi" }
      { stage := GET_DESTINATION
        user_data := { name := none, dob := none,
                       date := some (formatDate (nextDay today)),
                       origin := some "Mumbai", destination := none, cls := none }
        last_speech_input := some "mumbai", error_message := none
        sql_query := none, flight_results := none, processing := false }).1 =
      { stage := ASK_CLASS
        user_data := { name := none, dob := none,
                       date := some (formatDate (nextDay today)),
                       origin := some "Mumbai", destination := some "Delhi", cls := none }
        last_speech_input := some "delhi", error_message := none
        sql_query := none, flight_results := none, processing := false }
    from by simp [step, c4Env, c3, n3, pt2]]
  rw [show (step { c4Env today with listen := none }
      { stage := ASK_CLASS
        user_data := { name := none, dob := none,
                       date := some (formatDate (nextDay today)),
                       origin := some "Mumbai", destination := some "Delhi", cls := none }
        last_speech_input := some "delhi", error_message := none
        sql_query := none, flight_results := none, processing := false }).1 =
      { stage := GET_CLASS
        user_data := { name := none, dob := none,
                       date := some (formatDate (nextDay today)),
                       origin := some "Mumbai", destination := some "Delhi", cls := none }
        last_speech_input := some "delhi", error_message := none
        sql_query := none, flight_results := none, processing := false }
    from by simp [step]]
  rw [show (step { c4Env today with listen := some "economy class" }
      { stage := GET_CLASS
        user_data := { name := none, dob := none,
                       date := some (formatDate (nextDay today)),
                       origin := some "Mumbai", destination := some "Delhi", cls := none }
        last_speech_input := some "delhi", error_message := none
        sql_query := none, flight_results := none, processing := false }).1 =
      { stage := ASK_NAME
        user_data := { name := none, dob := none,
                       date := some (formatDate (nextDay today)),
                       origin := some "Mumbai", destination := some "Delhi",
                       cls := some "Economy" }
        last_speech_input := some "economy class", error_message := none
        sql_query := none, flight_results := none, processing := false }
    from by simp [step, c4Env, c4, n4, cpc]]
  rw [show (step { c4Env today with listen := none }
      { stage := ASK_NAME
        user_data := { name := none, dob := none,
                       date := some (formatDate (nextDay today)),
                       origin := some "Mumbai", destination := some "Delhi",
                       cls := some "Economy" }
        last_speech_input := some "economy class", error_message := none
        sql_query := none, flight_results := none, processing := false }).1 =
      { stage := GET_NAME
        user_data := { name := none, dob := none,
                       date := some (formatDate (nextDay today)),
                       origin := some "Mumbai", destination := some "Delhi",
                       cls := some "Economy" }
        last_speech_input := some "economy class", error_message := none
        sql_query := none, flight_results := none, processing := false }
    from by simp [step]]
  rw [show (step { c4Env today with listen := some "jane doe" }
      { stage := GET_NAME
        user_data := { name := none, dob := none,
                       date := some (formatDate (nextDay today)),
                       origin := some "Mumbai", destination := some "Delhi",
                       cls := some "Economy" }
        last_speech_input := some "economy class", error_message := none
        sql_query := none, flight_results := none, processing := false }).1 =
      { stage := ASK_DOB
        user_data := { name := some "Jane Doe", dob := none,
                       date := some (formatDate (nextDay today)),
                       origin := some "Mumbai", destination := some "Delhi",
                       cls := some "Economy" }
        last_speech_input := some "jane doe", error_message := none
        sql_query := none, flight_results := none, processing := false }
    from by simp [step, c4Env, c5, n5, pt3]]
  rw [show (step { c4Env today with listen := none }
      { stage := ASK_DOB
        user_data := { name := some "Jane Doe", dob := none,
                       date := some (formatDate (nextDay today)),
                       origin := some "Mumbai", destination := some "Delhi",
                       cls := some "Economy" }
        last_speech_input := some "jane doe", error_message := none
        sql_query := none, flight_results := none, processing := false }).1 =
      { stage := GET_DOB
        user_data := { name := some "Jane Doe", dob := none,
                       date := some (formatDate (nextDay today)),
                       origin := some "Mumbai", destination := some "Delhi",
                       cls := some "Economy" }
        last_speech_input := some "jane doe", error_message := none
        sql_query := none, flight_results := none, processing := false }
    from by simp [step]]
  rw [show (step { c4Env today with listen := some "may 10 1990" }
      { stage := GET_DOB
        user_data := { name := some "Jane Doe", dob := none,
                       date := some (formatDate (nextDay today)),
                       origin := some "Mumbai", destination := some "Delhi",
                       cls := some "Economy" }
        last_speech_input := some "jane doe", error_message := none
        sql_query := none, flight_results := none, processing := false }).1 =
      { stage := CONFIRM
        user_data := { name := some "Jane Doe", dob := some "1990-05-10",
                       date := some (formatDate (nextDay today)),
                       origin := some "Mumbai", destination := some "Delhi",
                       cls := some "Economy" }
        last_speech_input := some "may 10 1990", error_message := none
        sql_query := none, flight_results := none, processing := false }
    from by simp [step, c4Env, try_parse_date_string, cmay, fd90, cmayrt, h90, c6, n6]]
  rw [show (step { c4Env today with listen := none }
      { stage := CONFIRM
        user_data := { name := some "Jane Doe", dob := some "1990-05-10",
                       date := some (formatDate (nextDay today)),
                       origin := some "Mumbai", destination := some "Delhi",
                       cls := some "Economy" }
        last_speech_input := some "may 10 1990", error_message := none
        sql_query := none, flight_results := none, processing := false }).1 =
      { stage := GET_CONFIRMATION
        user_data := { name := some "Jane Doe", dob := some "1990-05-10",
                       date := some (formatDate (nextDay today)),
                       origin := some "Mumbai", destination := some "Delhi",
                       cls := some "Economy" }
        last_speech_input := some "may 10 1990", error_message := none
        sql_query := none, flight_results := none, processing := false }
    from by simp [step, ftd, ftM, ftD, ftE, ftJ, ftB]]
  rw [show (step { c4Env today with listen := some "yes" }
      { stage := GET_CONFIRMATION
        user_data := { name := some "Jane Doe", dob := some "1990-05-10",
                       date := some (formatDate (nextDay today)),
                       origin := some "Mumbai", destination := some "Delhi",
                       cls := some "Economy" }
        last_speech_input := some "may 10 1990", error_message := none
        sql_query := none, flight_results := none, processing := false }).1 =
      { stage := QUERYING
        user_data := { name := some "Jane Doe", dob := some "1990-05-10",
                       date := some (formatDate (nextDay today)),
                       origin := some "Mumbai", destination := some "Delhi",
                       cls := some "Economy" }
        last_speech_input := some "yes", error_message := none
        sql_query := none, flight_results := none, processing := false }
    from by simp [step, c4Env, c7, cy, n7]]
  exact ⟨rfl, rfl⟩

/-- Witness for C4 at the concrete date 2026-10-12. -/
theorem claim_C4_end_to_end_witness :
    (runSteps (c4Env ⟨2026, 10, 12⟩) c4Inputs c4Start).user_data =
      { name := some "Jane Doe", dob := some "1990-05-10"
        date := some (formatDate (nextDay ⟨2026, 10, 12⟩))
        origin := some "Mumbai", destination := some "Delhi"
        cls := some "Economy" } ∧
    (runSteps (c4Env ⟨2026, 10, 12⟩) c4Inputs c4Start).stage = QUERYING :=
  claim_C4_end_to_end ⟨2026, 10, 12⟩ (by decide) (by decide) (by decide)
    (by decide)
